import Mathlib

/-!
Shallow embedding of the customer-list read model of
`src/domain/readModels/CustomerListReadModel.js` together with the
collaborators its specification references.  The projection folds
customer events into an adapter-backed collection; each handler below is
a direct translation of the corresponding JavaScript function, with the
adapter mutations additionally recorded as an explicit operation trace
so that atomicity of failing handlers can be stated.
-/

namespace CustomerListReadModel

/-- Modelled from the spec: the constants module `src/domain/constants/events`
is not under `src/`; the spec's end-to-end scenario names the creation event
"CUSTOMER_CREATED", and the remaining tags follow the same naming scheme.
Only distinctness and the tag-to-handler mapping matter. -/
def CUSTOMER_CREATED : String := "CUSTOMER_CREATED"

/-- Modelled from the spec: tag of the customer-updated event. -/
def CUSTOMER_UPDATED : String := "CUSTOMER_UPDATED"

/-- Modelled from the spec: tag of the customer-deactivated event. -/
def CUSTOMER_DEACTIVATED : String := "CUSTOMER_DEACTIVATED"

/-- Modelled from the spec: tag of the customer-reactivated event. -/
def CUSTOMER_REACTIVATED : String := "CUSTOMER_REACTIVATED"

/-- Modelled from the spec: tag of the pre-creation registration event,
which the read model intentionally does not handle. -/
def CUSTOMER_REGISTERED : String := "CUSTOMER_REGISTERED"

/-- Modelled from the spec: the constants module `src/domain/constants/collections`
is not under `src/`; the projection stores its records in the CUSTOMERS
collection. -/
def CUSTOMERS : String := "CUSTOMERS"

/-- A record of the customer-list projection, as inserted by
`onCustomerCreatedEvent`: the three payload fields plus the derived
`active` flag (1 = active, 0 = deactivated). -/
structure CustomerRecord where
  name : String
  email : String
  password : String
  active : Nat
  deriving DecidableEq

/-- An event as seen by the projection: the dispatch tag `__name`, the
aggregate id, and the payload fields the four handlers read.  Handlers
only access the fields their event type carries, mirroring the dynamic
JavaScript event objects. -/
structure Event where
  __name : String
  customerId : String
  name : String
  email : String
  password : String
  deriving DecidableEq

/-- Key of an adapter entry: (collection, id). -/
abbrev CollKey := String × String

/-- State of the read-model persistence adapter: an association list from
(collection, id) keys to records.  `adapterGet` returns the first match. -/
abbrev AdapterState := List (CollKey × CustomerRecord)

/-- The empty adapter state (fresh projection). -/
def emptyAdapterState : AdapterState := []

/-- `adapter.get(collection, id)`: the record stored under the key, if any. -/
def adapterGet (s : AdapterState) (coll id : String) : Option CustomerRecord :=
  match s with
  | [] => none
  | (k, r) :: rest => if k = (coll, id) then some r else adapterGet rest coll id

/-- `adapter.insert(collection, id, record)`: adds a binding for the key. -/
def adapterInsert (s : AdapterState) (coll id : String) (r : CustomerRecord) :
    AdapterState :=
  ((coll, id), r) :: s

/-- `adapter.update(collection, id, record)`: replaces the binding for the key
in place, leaving all other entries (and the entry order) untouched. -/
def adapterUpdate (s : AdapterState) (coll id : String) (r : CustomerRecord) :
    AdapterState :=
  s.map (fun p => if p.1 = (coll, id) then ((coll, id), r) else p)

/-- Errors raised by the embedded code.  The JavaScript throws plain
`Error(message)` values; the spec's taxonomy classifies the projection
handlers' throws as `ProjectionInvariantViolation` and the write-side
rule failures as `DomainRuleViolation`, so the constructors carry that
classification together with the thrown message. -/
inductive DomainError where
  | projectionInvariantViolation (message : String)
  | domainRuleViolation (message : String)
  deriving DecidableEq

/-- A mutating persistence-adapter operation (reads are not recorded). -/
inductive MutOp where
  | insertOp (coll id : String) (record : CustomerRecord)
  | updateOp (coll id : String) (record : CustomerRecord)
  deriving DecidableEq

/-- Replays a recorded operation trace against an adapter state. -/
def applyMutOp (s : AdapterState) : MutOp → AdapterState
  | .insertOp coll id r => adapterInsert s coll id r
  | .updateOp coll id r => adapterUpdate s coll id r

/-- Replays a list of recorded operations, in order. -/
def applyMutOps (s : AdapterState) (ops : List MutOp) : AdapterState :=
  ops.foldl applyMutOp s

/-- `onCustomerCreatedEvent` (src lines 27-39): throws "Customer already
exists" when the adapter already holds a record for the event's
customerId, otherwise inserts a record copying name, email and password
from the event with active flag 1.  The first component records the
adapter mutations issued. -/
def onCustomerCreatedEvent (s : AdapterState) (event : Event) :
    List MutOp × Except DomainError AdapterState :=
  if (adapterGet s CUSTOMERS event.customerId).isSome then
    ([], .error (.projectionInvariantViolation "Customer already exists"))
  else
    ([.insertOp CUSTOMERS event.customerId
        ⟨event.name, event.email, event.password, 1⟩],
     .ok (adapterInsert s CUSTOMERS event.customerId
        ⟨event.name, event.email, event.password, 1⟩))

/-- `onCustomerUpdatedEvent` (src lines 46-56): throws "Customer not found"
when no record exists, otherwise overwrites the record's name with the
event's name and writes the record back. -/
def onCustomerUpdatedEvent (s : AdapterState) (event : Event) :
    List MutOp × Except DomainError AdapterState :=
  match adapterGet s CUSTOMERS event.customerId with
  | none => ([], .error (.projectionInvariantViolation "Customer not found"))
  | some customer =>
      ([.updateOp CUSTOMERS event.customerId { customer with name := event.name }],
       .ok (adapterUpdate s CUSTOMERS event.customerId
          { customer with name := event.name }))

/-- `onCustomerDeactivatedEvent` (src lines 63-73): throws "Customer not
found" when no record exists, otherwise sets the record's active flag
to 0 and writes it back. -/
def onCustomerDeactivatedEvent (s : AdapterState) (event : Event) :
    List MutOp × Except DomainError AdapterState :=
  match adapterGet s CUSTOMERS event.customerId with
  | none => ([], .error (.projectionInvariantViolation "Customer not found"))
  | some customer =>
      ([.updateOp CUSTOMERS event.customerId { customer with active := 0 }],
       .ok (adapterUpdate s CUSTOMERS event.customerId
          { customer with active := 0 }))

/-- `onCustomerReactivatedEvent` (src lines 80-90): throws "Customer not
found" when no record exists, otherwise sets the record's active flag
to 1 and writes it back. -/
def onCustomerReactivatedEvent (s : AdapterState) (event : Event) :
    List MutOp × Except DomainError AdapterState :=
  match adapterGet s CUSTOMERS event.customerId with
  | none => ([], .error (.projectionInvariantViolation "Customer not found"))
  | some customer =>
      ([.updateOp CUSTOMERS event.customerId { customer with active := 1 }],
       .ok (adapterUpdate s CUSTOMERS event.customerId
          { customer with active := 1 }))

/-- `onEvent` (src lines 99-110): dispatches on the event's `__name` tag to
the matching handler; events with any other tag fall through the switch
and are a no-op. -/
def onEvent (s : AdapterState) (event : Event) :
    List MutOp × Except DomainError AdapterState :=
  if event.__name = CUSTOMER_CREATED then onCustomerCreatedEvent s event
  else if event.__name = CUSTOMER_UPDATED then onCustomerUpdatedEvent s event
  else if event.__name = CUSTOMER_DEACTIVATED then onCustomerDeactivatedEvent s event
  else if event.__name = CUSTOMER_REACTIVATED then onCustomerReactivatedEvent s event
  else ([], .ok s)

/-- Whether the tag is one of the four event types the projection handles. -/
def handledEventName (n : String) : Bool :=
  n = CUSTOMER_CREATED || n = CUSTOMER_UPDATED ||
    n = CUSTOMER_DEACTIVATED || n = CUSTOMER_REACTIVATED

/-- `repository.store.forEach(onEvent)` (src line 117): replays a stored
event history through the handler; a handler throw propagates out of the
iteration, so replay stops at the first error. -/
def replayAll (s : AdapterState) : List Event → Except DomainError AdapterState
  | [] => .ok s
  | e :: es =>
    match (onEvent s e).2 with
    | .ok s' => replayAll s' es
    | .error err => .error err

/-- Live delivery of a sequence of events through the bus subscription
(src line 111): each event reaches the handler through its own publish,
so a handler throw fails that publish alone and leaves the projection
state as it was; subsequent events are still delivered. -/
def feedLive (s : AdapterState) : List Event → AdapterState
  | [] => s
  | e :: es =>
    match (onEvent s e).2 with
    | .ok s' => feedLive s' es
    | .error _ => feedLive s es

/-- Per-record view of a modifying handler action: the updated handler
overwrites the name, the deactivated and reactivated handlers overwrite
the active flag. -/
inductive RecMod where
  | setName (v : String)
  | setActive (v : Nat)
  deriving DecidableEq

/-- Applies one per-record modification. -/
def applyRecMod (r : CustomerRecord) : RecMod → CustomerRecord
  | .setName v => { r with name := v }
  | .setActive v => { r with active := v }

/-- Applies per-record modifications in order. -/
def applyRecMods (r : CustomerRecord) (ms : List RecMod) : CustomerRecord :=
  ms.foldl applyRecMod r

/-- The per-record modification performed by a handled non-creation event. -/
def eventMod (e : Event) : Option RecMod :=
  if e.__name = CUSTOMER_UPDATED then some (.setName e.name)
  else if e.__name = CUSTOMER_DEACTIVATED then some (.setActive 0)
  else if e.__name = CUSTOMER_REACTIVATED then some (.setActive 1)
  else none

/-- The effect of one event on the single record stored under
(coll, id), together with the error the handler would raise; events
keyed elsewhere, and unhandled tags, leave the record alone. -/
def recStepE (coll id : String) (acc : Option CustomerRecord) (e : Event) :
    Except DomainError (Option CustomerRecord) :=
  if coll = CUSTOMERS ∧ e.customerId = id then
    if e.__name = CUSTOMER_CREATED then
      match acc with
      | some _ => .error (.projectionInvariantViolation "Customer already exists")
      | none => .ok (some ⟨e.name, e.email, e.password, 1⟩)
    else
      match eventMod e with
      | some m =>
        match acc with
        | none => .error (.projectionInvariantViolation "Customer not found")
        | some r => .ok (some (applyRecMod r m))
      | none => .ok acc
  else .ok acc

/-- Per-record step under live delivery: a handler error leaves the
record unchanged. -/
def recStep (coll id : String) (acc : Option CustomerRecord) (e : Event) :
    Option CustomerRecord :=
  match recStepE coll id acc e with
  | .ok acc' => acc'
  | .error _ => acc

/-- Per-record replay, stopping at the first handler error. -/
def recFoldE (coll id : String) (acc : Option CustomerRecord) :
    List Event → Except DomainError (Option CustomerRecord)
  | [] => .ok acc
  | e :: es =>
    match recStepE coll id acc e with
    | .ok acc' => recFoldE coll id acc' es
    | .error err => .error err

/-- Per-record live delivery: errors are per-event, so delivery continues. -/
def recFold (coll id : String) (acc : Option CustomerRecord) :
    List Event → Option CustomerRecord
  | [] => acc
  | e :: es => recFold coll id (recStep coll id acc e) es

/-- The per-record modifications a sequence of events performs on the
record stored under (coll, id). -/
def modsFor (coll id : String) (es : List Event) : List RecMod :=
  es.filterMap (fun e =>
    if coll = CUSTOMERS ∧ e.customerId = id then eventMod e else none)

/-- The value written by the last name-writing modification, if any. -/
def lastSetName : List RecMod → Option String
  | [] => none
  | m :: ms =>
    match lastSetName ms with
    | some v => some v
    | none =>
      match m with
      | .setName v => some v
      | .setActive _ => none

/-- The value written by the last active-flag modification, if any. -/
def lastSetActive : List RecMod → Option Nat
  | [] => none
  | m :: ms =>
    match lastSetActive ms with
    | some v => some v
    | none =>
      match m with
      | .setActive v => some v
      | .setName _ => none

/-- The two startup steps the read-model constructor performs. -/
inductive StartupAction where
  | subscribeBus
  | replayStore
  deriving DecidableEq

/-- The constructor body of `CustomerListReadModel` (src lines 111-117):
it first subscribes `onEvent` to the bus, then replays the store's
history through the same handler. -/
def customerListReadModelStartup : List StartupAction :=
  [StartupAction.subscribeBus, StartupAction.replayStore]

/-- Modelled from the spec: the EventStore module is not under `src/`.
Per spec §4.1, `allEvents()` read at the replay instant yields every
event committed before that instant, so replay delivers exactly the
events with an earlier commit time. -/
def replayDelivers (replayTime commitTime : Nat) : Bool :=
  commitTime < replayTime

/-- Modelled from the spec: the EventBus module is not under `src/`.
Per spec §4.4, a subscribed handler is invoked for every event published
after the subscription, so live delivery covers exactly the events with
a commit time after the subscription instant. -/
def liveDelivers (subscribeTime commitTime : Nat) : Bool :=
  subscribeTime < commitTime

/-- An event committed at `commitTime` reaches the projection during or
after startup if either the replay or the live subscription delivers it. -/
def startupDelivered (subscribeTime replayTime commitTime : Nat) : Bool :=
  replayDelivers replayTime commitTime || liveDelivers subscribeTime commitTime

/-- Modelled from the spec: the Repository/Aggregate modules are not under
`src/`.  Per spec §4.2 the customer aggregate state is the fold of its
event history, and the aggregate exists iff its history is nonempty. -/
def customerExists (store : List Event) (cid : String) : Bool :=
  store.any (fun e => e.customerId == cid)

/-- Modelled from the spec: `CustomerCommandHandler` and `EventStore` are
not under `src/`.  Per spec §4.2 and the test
`src/domain/commandHandlers/CustomerCommandHandler.test.js`, a
CreateCustomer command requires a nonexistent aggregate and fails with
DomainRuleViolation "can not create same customer more than once"
otherwise, appending nothing; on success it appends one CUSTOMER_CREATED
event carrying the command's id and name. -/
def handleCreateCustomer (store : List Event) (cid nm : String) :
    Except DomainError (List Event) :=
  if customerExists store cid then
    .error (.domainRuleViolation "can not create same customer more than once")
  else
    .ok (store ++ [⟨CUSTOMER_CREATED, cid, nm, "", ""⟩])

/-- The aggregate id used by the command-handler test. -/
def testCustomerId : String := "1234-5678-9012-3456"

/-- The customer name used by the command-handler test. -/
def testCustomerName : String := "Test Customer"

/-- The creation events a store holds for a given aggregate id. -/
def createdEventsFor (store : List Event) (cid : String) : List Event :=
  store.filter (fun e => e.__name == CUSTOMER_CREATED && e.customerId == cid)

/-- Sample events used by the concrete witness instances. -/
def sampleCreated : Event :=
  ⟨CUSTOMER_CREATED, "c1", "Alice", "alice@example.com", "pw"⟩

/-- Sample update event for the witness instances. -/
def sampleUpdated : Event := ⟨CUSTOMER_UPDATED, "c1", "Bob", "", ""⟩

/-- Sample deactivation event for the witness instances. -/
def sampleDeactivated : Event := ⟨CUSTOMER_DEACTIVATED, "c1", "", "", ""⟩

/-- Sample reactivation event for the witness instances. -/
def sampleReactivated : Event := ⟨CUSTOMER_REACTIVATED, "c1", "", "", ""⟩

/-- Sample registration event, which the projection does not handle. -/
def sampleRegistered : Event :=
  ⟨CUSTOMER_REGISTERED, "c1", "Alice", "alice@example.com", "pw"⟩

/-- Sample one-record adapter state for the witness instances. -/
def sampleState : AdapterState :=
  [((CUSTOMERS, "c1"), ⟨"Alice", "alice@example.com", "pw", 1⟩)]

theorem adapterGet_nil (coll id : String) : adapterGet [] coll id = none := rfl

theorem adapterGet_cons (k : CollKey) (r : CustomerRecord) (rest : AdapterState)
    (coll id : String) :
    adapterGet ((k, r) :: rest) coll id =
      if k = (coll, id) then some r else adapterGet rest coll id := rfl

theorem adapterUpdate_nil (coll id : String) (r : CustomerRecord) :
    adapterUpdate [] coll id r = [] := rfl

theorem adapterUpdate_cons (k : CollKey) (v : CustomerRecord) (rest : AdapterState)
    (coll id : String) (r : CustomerRecord) :
    adapterUpdate ((k, v) :: rest) coll id r =
      (if k = (coll, id) then ((coll, id), r) else (k, v)) ::
        adapterUpdate rest coll id r := rfl

theorem adapterGet_insert_same (s : AdapterState) (coll id : String)
    (r : CustomerRecord) :
    adapterGet (adapterInsert s coll id r) coll id = some r := by
  simp [adapterInsert, adapterGet_cons]

theorem adapterGet_insert_other (s : AdapterState) (coll id coll' id' : String)
    (r : CustomerRecord) (h : (coll', id') ≠ (coll, id)) :
    adapterGet (adapterInsert s coll id r) coll' id' = adapterGet s coll' id' := by
  simp [adapterInsert, adapterGet_cons, Ne.symm h]

theorem adapterGet_update_same (s : AdapterState) (coll id : String)
    (r : CustomerRecord) :
    adapterGet (adapterUpdate s coll id r) coll id =
      (adapterGet s coll id).map (fun _ => r) := by
  induction s with
  | nil => simp [adapterUpdate_nil, adapterGet_nil]
  | cons p rest ih =>
    obtain ⟨k, rec⟩ := p
    by_cases hk : k = (coll, id)
    · subst hk
      simp [adapterUpdate_cons, adapterGet_cons]
    · simp [adapterUpdate_cons, adapterGet_cons, hk, ih]

theorem adapterGet_update_other (s : AdapterState) (coll id coll' id' : String)
    (r : CustomerRecord) (h : (coll', id') ≠ (coll, id)) :
    adapterGet (adapterUpdate s coll id r) coll' id' = adapterGet s coll' id' := by
  induction s with
  | nil => simp [adapterUpdate_nil]
  | cons p rest ih =>
    obtain ⟨k, rec⟩ := p
    by_cases hk : k = (coll, id)
    · subst hk
      simp [adapterUpdate_cons, adapterGet_cons, Ne.symm h, ih]
    · simp [adapterUpdate_cons, adapterGet_cons, hk, ih]

/-- C1: for a CUSTOMER_CREATED event, when no record for the event's
customerId is in the CUSTOMERS collection the handler issues exactly one
insert of a record copying name, email and password from the event with
active flag 1, and succeeds with that record stored; when a record is
already present it fails with ProjectionInvariantViolation "Customer
already exists" and issues no mutation. -/
theorem created_inserts_once_or_rejects (s : AdapterState) (event : Event)
    (hname : event.__name = CUSTOMER_CREATED) :
    (adapterGet s CUSTOMERS event.customerId = none →
      (onEvent s event).1 =
        [MutOp.insertOp CUSTOMERS event.customerId
          ⟨event.name, event.email, event.password, 1⟩] ∧
      (onEvent s event).2 =
        .ok (adapterInsert s CUSTOMERS event.customerId
          ⟨event.name, event.email, event.password, 1⟩) ∧
      adapterGet (adapterInsert s CUSTOMERS event.customerId
          ⟨event.name, event.email, event.password, 1⟩) CUSTOMERS event.customerId =
        some ⟨event.name, event.email, event.password, 1⟩) ∧
    ((adapterGet s CUSTOMERS event.customerId).isSome →
      (onEvent s event).1 = [] ∧
      (onEvent s event).2 =
        .error (.projectionInvariantViolation "Customer already exists")) := by
  constructor
  · intro habs
    refine ⟨?_, ?_, adapterGet_insert_same ..⟩ <;>
      simp [onEvent, hname, onCustomerCreatedEvent, habs]
  · intro hsome
    constructor <;> simp [onEvent, hname, onCustomerCreatedEvent, hsome]

/-- C1 witness: a concrete CUSTOMER_CREATED event applied to the empty
projection succeeds and stores the copied record with active flag 1. -/
theorem created_inserts_once_or_rejects_witness :
    (onEvent emptyAdapterState sampleCreated).2 =
      .ok (adapterInsert emptyAdapterState CUSTOMERS sampleCreated.customerId
        ⟨sampleCreated.name, sampleCreated.email, sampleCreated.password, 1⟩) :=
  ((created_inserts_once_or_rejects emptyAdapterState sampleCreated rfl).1 rfl).2.1

/-- C2: an update, deactivate or reactivate event whose customerId has no
record in the CUSTOMERS collection fails with
ProjectionInvariantViolation "Customer not found", issues no adapter
mutation, and leaves the projection state unchanged. -/
theorem missing_record_rejected (s : AdapterState) (event : Event)
    (hname : event.__name = CUSTOMER_UPDATED ∨ event.__name = CUSTOMER_DEACTIVATED ∨
      event.__name = CUSTOMER_REACTIVATED)
    (habs : adapterGet s CUSTOMERS event.customerId = none) :
    (onEvent s event).2 =
      .error (.projectionInvariantViolation "Customer not found") ∧
    (onEvent s event).1 = [] ∧
    applyMutOps s (onEvent s event).1 = s := by
  rcases hname with h | h | h <;>
    simp [onEvent, h, CUSTOMER_CREATED, CUSTOMER_UPDATED, CUSTOMER_DEACTIVATED,
      CUSTOMER_REACTIVATED, onCustomerUpdatedEvent, onCustomerDeactivatedEvent,
      onCustomerReactivatedEvent, habs, applyMutOps]

/-- C2 witness: a concrete CUSTOMER_UPDATED event t the empty projection
fails with "Customer not found". -/
theorem missing_record_rejected_witness :
    (onEvent emptyAdapterState sampleUpdated).2 =
      .error (.projectionInvariantViolation "Customer not found") :=
  (missing_record_rejected emptyAdapterState sampleUpdated (Or.inl rfl) rfl).1

/-- C4: from a projection with no record for the id, a CUSTOMER_CREATED
event, then a CUSTOMER_DEACTIVATED event, then a CUSTOMER_REACTIVATED
event for the same id all succeed, and the final record for that id has
active flag 1. -/
theorem create_deactivate_reactivate_active (s : AdapterState) (ec ed er : Event)
    (hc : ec.__name = CUSTOMER_CREATED)
    (hd : ed.__name = CUSTOMER_DEACTIVATED) (hdid : ed.customerId = ec.customerId)
    (hr : er.__name = CUSTOMER_REACTIVATED) (hrid : er.customerId = ec.customerId)
    (habs : adapterGet s CUSTOMERS ec.customerId = none) :
    ∃ s1 s2 s3,
      (onEvent s ec).2 = .ok s1 ∧ (onEvent s1 ed).2 = .ok s2 ∧
      (onEvent s2 er).2 = .ok s3 ∧
      ∃ rec, adapterGet s3 CUSTOMERS ec.customerId = some rec ∧ rec.active = 1 := by
  refine ⟨adapterInsert s CUSTOMERS ec.customerId ⟨ec.name, ec.email, ec.password, 1⟩,
    adapterUpdate
      (adapterInsert s CUSTOMERS ec.customerId ⟨ec.name, ec.email, ec.password, 1⟩)
      CUSTOMERS ec.customerId ⟨ec.name, ec.email, ec.password, 0⟩,
    adapterUpdate
      (adapterUpdate
        (adapterInsert s CUSTOMERS ec.customerId ⟨ec.name, ec.email, ec.password, 1⟩)
        CUSTOMERS ec.customerId ⟨ec.name, ec.email, ec.password, 0⟩)
      CUSTOMERS ec.customerId ⟨ec.name, ec.email, ec.password, 1⟩,
    ?_, ?_, ?_, ⟨ec.name, ec.email, ec.password, 1⟩, ?_, rfl⟩
  · simp [onEvent, hc, onCustomerCreatedEvent, habs]
  · simp [onEvent, hd, CUSTOMER_CREATED, CUSTOMER_UPDATED, CUSTOMER_DEACTIVATED,
      onCustomerDeactivatedEvent, hdid, adapterGet_insert_same]
  · simp [onEvent, hr, CUSTOMER_CREATED, CUSTOMER_UPDATED, CUSTOMER_DEACTIVATED,
      CUSTOMER_REACTIVATED, onCustomerReactivatedEvent, hrid,
      adapterGet_update_same, adapterGet_insert_same]
  · simp [adapterGet_update_same, adapterGet_insert_same]

/-- C4 witness: the concrete created, deactivated, reactivated sequence on
the empty projection. -/
theorem create_deactivate_reactivate_active_witness :
    ∃ s1 s2 s3,
      (onEvent emptyAdapterState sampleCreated).2 = .ok s1 ∧
      (onEvent s1 sampleDeactivated).2 = .ok s2 ∧
      (onEvent s2 sampleReactivated).2 = .ok s3 ∧
      ∃ rec, adapterGet s3 CUSTOMERS sampleCreated.customerId = some rec ∧
        rec.active = 1 :=
  create_deactivate_reactivate_active emptyAdapterState sampleCreated
    sampleDeactivated sampleReactivated rfl rfl rfl rfl rfl rfl

/-- C5: a CUSTOMER_UPDATED event on an existing record replaces only the
record's name by the event's name, leaving email, password and active
untouched, and leaves every other key's record unchanged. -/
theorem updated_changes_only_name (s : AdapterState) (event : Event)
    (c : CustomerRecord) (hname : event.__name = CUSTOMER_UPDATED)
    (hget : adapterGet s CUSTOMERS event.customerId = some c) :
    (onEvent s event).2 =
      .ok (adapterUpdate s CUSTOMERS event.customerId { c with name := event.name }) ∧
    adapterGet (adapterUpdate s CUSTOMERS event.customerId { c with name := event.name })
        CUSTOMERS event.customerId = some { c with name := event.name } ∧
    ∀ coll id, (coll, id) ≠ (CUSTOMERS, event.customerId) →
      adapterGet (adapterUpdate s CUSTOMERS event.customerId { c with name := event.name })
          coll id = adapterGet s coll id := by
  refine ⟨?_, ?_, ?_⟩
  · simp [onEvent, hname, CUSTOMER_CREATED, CUSTOMER_UPDATED,
      onCustomerUpdatedEvent, hget]
  · simp [adapterGet_update_same, hget]
  · intro coll id hne
    exact adapterGet_update_other s CUSTOMERS event.customerId coll id _ hne

/-- C5 witness: a concrete update on a one-record projection rewrites
that record's name and nothing else. -/
theorem updated_changes_only_name_witness :
    (onEvent sampleState sampleUpdated).2 =
      .ok (adapterUpdate sampleState CUSTOMERS "c1"
        ⟨"Bob", "alice@example.com", "pw", 1⟩) :=
  (updated_changes_only_name sampleState sampleUpdated
    ⟨"Alice", "alice@example.com", "pw", 1⟩ rfl rfl).1

/-- C6: on an existing record, a CUSTOMER_DEACTIVATED event sets the
record's active flag to 0 and a CUSTOMER_REACTIVATED event sets it to 1,
leaving the other fields unchanged, and leaves every other key's record
unchanged. -/
theorem active_flag_events (s : AdapterState) (event : Event) (c : CustomerRecord)
    (hget : adapterGet s CUSTOMERS event.customerId = some c) :
    (event.__name = CUSTOMER_DEACTIVATED →
      (onEvent s event).2 =
        .ok (adapterUpdate s CUSTOMERS event.customerId { c with active := 0 }) ∧
      adapterGet (adapterUpdate s CUSTOMERS event.customerId { c with active := 0 })
          CUSTOMERS event.customerId = some { c with active := 0 } ∧
      ∀ coll id, (coll, id) ≠ (CUSTOMERS, event.customerId) →
        adapterGet (adapterUpdate s CUSTOMERS event.customerId { c with active := 0 })
            coll id = adapterGet s coll id) ∧
    (event.__name = CUSTOMER_REACTIVATED →
      (onEvent s event).2 =
        .ok (adapterUpdate s CUSTOMERS event.customerId { c with active := 1 }) ∧
      adapterGet (adapterUpdate s CUSTOMERS event.customerId { c with active := 1 })
          CUSTOMERS event.customerId = some { c with active := 1 } ∧
      ∀ coll id, (coll, id) ≠ (CUSTOMERS, event.customerId) →
        adapterGet (adapterUpdate s CUSTOMERS event.customerId { c with active := 1 })
            coll id = adapterGet s coll id) := by
  constructor
  · intro hname
    refine ⟨?_, ?_, ?_⟩
    · simp [onEvent, hname, CUSTOMER_CREATED, CUSTOMER_UPDATED, CUSTOMER_DEACTIVATED,
        onCustomerDeactivatedEvent, hget]
    · simp [adapterGet_update_same, hget]
    · intro coll id hne
      exact adapterGet_update_other s CUSTOMERS event.customerId coll id _ hne
  · intro hname
    refine ⟨?_, ?_, ?_⟩
    · simp [onEvent, hname, CUSTOMER_CREATED, CUSTOMER_UPDATED, CUSTOMER_DEACTIVATED,
        CUSTOMER_REACTIVATED, onCustomerReactivatedEvent, hget]
    · simp [adapterGet_update_same, hget]
    · intro coll id hne
      exact adapterGet_update_other s CUSTOMERS event.customerId coll id _ hne

/-- C6 witness: a concrete deactivation on a one-record projection turns
the record's active flag to 0. -/
theorem active_flag_events_witness :
    (onEvent sampleState sampleDeactivated).2 =
      .ok (adapterUpdate sampleState CUSTOMERS "c1"
        ⟨"Alice", "alice@example.com", "pw", 0⟩) :=
  ((active_flag_events sampleState sampleDeactivated
    ⟨"Alice", "alice@example.com", "pw", 1⟩ rfl).1 rfl).1

/-- C7: an event whose tag is none of the four handled ones is a no-op:
the dispatcher issues no adapter operation, raises no error, and returns
the state unchanged. -/
theorem unhandled_event_noop (s : AdapterState) (event : Event)
    (h : handledEventName event.__name = false) :
    onEvent s event = ([], .ok s) := by
  simp only [handledEventName, Bool.or_eq_false_iff, decide_eq_false_iff_not] at h
  obtain ⟨⟨⟨h1, h2⟩, h3⟩, h4⟩ := h
  simp [onEvent, h1, h2, h3, h4]

/-- C7 witness: a CUSTOMER_REGISTERED event leaves the sample projection
untouched. -/
theorem unhandled_event_noop_witness :
    onEvent emptyAdapterState sampleRegistered = ([], .ok emptyAdapterState) :=
  unhandled_event_noop emptyAdapterState sampleRegistered (by decide)

/-- C10: whenever the dispatcher fails on an event, it has issued no
insert or update to the persistence adapter, so replaying its recorded
operation trace leaves the projection state exactly as it was. -/
theorem handler_error_atomic (s : AdapterState) (event : Event) (err : DomainError)
    (h : (onEvent s event).2 = .error err) :
    (onEvent s event).1 = [] ∧ applyMutOps s (onEvent s event).1 = s := by
  by_cases h1 : event.__name = CUSTOMER_CREATED
  · rcases hg : adapterGet s CUSTOMERS event.customerId with _ | c
    · simp [onEvent, h1, onCustomerCreatedEvent, hg] at h
    · simp [onEvent, h1, onCustomerCreatedEvent, hg, applyMutOps]
  · by_cases h2 : event.__name = CUSTOMER_UPDATED
    · rcases hg : adapterGet s CUSTOMERS event.customerId with _ | c
      · simp [onEvent, h1, h2, CUSTOMER_CREATED, CUSTOMER_UPDATED,
          onCustomerUpdatedEvent, hg, applyMutOps]
      · simp [onEvent, h1, h2, CUSTOMER_CREATED, CUSTOMER_UPDATED,
          onCustomerUpdatedEvent, hg] at h
    · by_cases h3 : event.__name = CUSTOMER_DEACTIVATED
      · rcases hg : adapterGet s CUSTOMERS event.customerId with _ | c
        · simp [onEvent, h1, h2, h3, CUSTOMER_CREATED, CUSTOMER_UPDATED,
            CUSTOMER_DEACTIVATED, onCustomerDeactivatedEvent, hg, applyMutOps]
        · simp [onEvent, h1, h2, h3, CUSTOMER_CREATED, CUSTOMER_UPDATED,
            CUSTOMER_DEACTIVATED, onCustomerDeactivatedEvent, hg] at h
      · by_cases h4 : event.__name = CUSTOMER_REACTIVATED
        · rcases hg : adapterGet s CUSTOMERS event.customerId with _ | c
          · simp [onEvent, h1, h2, h3, h4, CUSTOMER_CREATED, CUSTOMER_UPDATED,
              CUSTOMER_DEACTIVATED, CUSTOMER_REACTIVATED,
              onCustomerReactivatedEvent, hg, applyMutOps]
          · simp [onEvent, h1, h2, h3, h4, CUSTOMER_CREATED, CUSTOMER_UPDATED,
              CUSTOMER_DEACTIVATED, CUSTOMER_REACTIVATED,
              onCustomerReactivatedEvent, hg] at h
        · simp [onEvent, h1, h2, h3, h4] at h

/-- C10 witness: the failing duplicate creation on the sample projection
issues no mutation. -/
theorem handler_error_atomic_witness :
    (onEvent sampleState sampleCreated).1 = [] ∧
    applyMutOps sampleState (onEvent sampleState sampleCreated).1 = sampleState :=
  handler_error_atomic sampleState sampleCreated
    (.projectionInvariantViolation "Customer already exists") rfl

/-- C8: construction performs exactly the two startup actions, bus
subscription strictly before store replay; and whenever subscription
precedes replay, every commit instant is delivered by the replay or by
the live subscription, so no event is skipped (one committed between the
two instants is at worst delivered twice). -/
theorem startup_subscribe_then_replay_no_loss :
    customerListReadModelStartup =
      [StartupAction.subscribeBus, StartupAction.replayStore] ∧
    ∀ subscribeTime replayTime commitTime : Nat,
      subscribeTime < replayTime →
      startupDelivered subscribeTime replayTime commitTime = true := by
  refine ⟨rfl, ?_⟩
  intro ts tr t hlt
  simp only [startupDelivered, replayDelivers, liveDelivers, Bool.or_eq_true,
    decide_eq_true_eq]
  omega

/-- C8 witness: a commit between the two startup instants is delivered. -/
theorem startup_subscribe_then_replay_no_loss_witness :
    startupDelivered 3 7 5 = true :=
  startup_subscribe_then_replay_no_loss.2 3 7 5 (by decide)

/-- C9: the CreateCustomer scenario of the command-handler test: the
first command succeeds appending exactly one CUSTOMER_CREATED event for
the id, the identical second command fails with DomainRuleViolation
"can not create same customer more than once" appending nothing, and
replaying the resulting store into a fresh read model yields exactly one
record, active with name "Test Customer". -/
theorem create_customer_twice_scenario :
    handleCreateCustomer [] testCustomerId testCustomerName =
      .ok [⟨CUSTOMER_CREATED, testCustomerId, testCustomerName, "", ""⟩] ∧
    createdEventsFor [⟨CUSTOMER_CREATED, testCustomerId, testCustomerName, "", ""⟩]
        testCustomerId =
      [⟨CUSTOMER_CREATED, testCustomerId, testCustomerName, "", ""⟩] ∧
    handleCreateCustomer
        [⟨CUSTOMER_CREATED, testCustomerId, testCustomerName, "", ""⟩]
        testCustomerId testCustomerName =
      .error (.domainRuleViolation "can not create same customer more than once") ∧
    replayAll emptyAdapterState
        [⟨CUSTOMER_CREATED, testCustomerId, testCustomerName, "", ""⟩] =
      .ok [((CUSTOMERS, testCustomerId), ⟨testCustomerName, "", "", 1⟩)] :=
  ⟨rfl, rfl, rfl, rfl⟩

theorem replayAll_cons (s : AdapterState) (e : Event) (es : List Event) :
    replayAll s (e :: es) =
      match (onEvent s e).2 with
      | .ok s' => replayAll s' es
      | .error err => .error err := rfl

theorem feedLive_cons (s : AdapterState) (e : Event) (es : List Event) :
    feedLive s (e :: es) =
      match (onEvent s e).2 with
      | .ok s' => feedLive s' es
      | .error _ => feedLive s es := rfl

theorem recFoldE_cons (coll id : String) (acc : Option CustomerRecord) (e : Event)
    (es : List Event) :
    recFoldE coll id acc (e :: es) =
      match recStepE coll id acc e with
      | .ok acc' => recFoldE coll id acc' es
      | .error err => .error err := rfl

theorem recFold_cons (coll id : String) (acc : Option CustomerRecord) (e : Event)
    (es : List Event) :
    recFold coll id acc (e :: es) = recFold coll id (recStep coll id acc e) es := rfl

theorem collKey_ne (coll id c i : String) (hk : ¬(coll = c ∧ i = id)) :
    ((coll, id) : CollKey) ≠ (c, i) := by
  intro hco
  rw [Prod.mk.injEq] at hco
  exact hk ⟨hco.1, hco.2.symm⟩

theorem eventMod_created (e : Event) (hc : e.__name = CUSTOMER_CREATED) :
    eventMod e = none := by
  simp [eventMod, hc, CUSTOMER_CREATED, CUSTOMER_UPDATED, CUSTOMER_DEACTIVATED,
    CUSTOMER_REACTIVATED]

theorem recStepE_not_key (coll id : String) (acc : Option CustomerRecord) (e : Event)
    (hk : ¬(coll = CUSTOMERS ∧ e.customerId = id)) :
    recStepE coll id acc e = .ok acc := by
  simp [recStepE, hk]

theorem recStepE_created_none (coll id : String) (e : Event)
    (hk : coll = CUSTOMERS ∧ e.customerId = id) (hc : e.__name = CUSTOMER_CREATED) :
    recStepE coll id none e = .ok (some ⟨e.name, e.email, e.password, 1⟩) := by
  simp [recStepE, hk, hc]

theorem recStepE_created_some (coll id : String) (r : CustomerRecord) (e : Event)
    (hk : coll = CUSTOMERS ∧ e.customerId = id) (hc : e.__name = CUSTOMER_CREATED) :
    recStepE coll id (some r) e =
      .error (.projectionInvariantViolation "Customer already exists") := by
  simp [recStepE, hk, hc]

theorem recStepE_mod_none (coll id : String) (e : Event) (m : RecMod)
    (hk : coll = CUSTOMERS ∧ e.customerId = id) (hc : ¬e.__name = CUSTOMER_CREATED)
    (hm : eventMod e = some m) :
    recStepE coll id none e =
      .error (.projectionInvariantViolation "Customer not found") := by
  simp [recStepE, hk, hc, hm]

theorem recStepE_mod_some (coll id : String) (r : CustomerRecord) (e : Event)
    (m : RecMod) (hk : coll = CUSTOMERS ∧ e.customerId = id)
    (hc : ¬e.__name = CUSTOMER_CREATED) (hm : eventMod e = some m) :
    recStepE coll id (some r) e = .ok (some (applyRecMod r m)) := by
  simp [recStepE, hk, hc, hm]

theorem recStepE_unhandled (coll id : String) (acc : Option CustomerRecord)
    (e : Event) (hc : ¬e.__name = CUSTOMER_CREATED) (hm : eventMod e = none) :
    recStepE coll id acc e = .ok acc := by
  by_cases hk : coll = CUSTOMERS ∧ e.customerId = id
  · simp [recStepE, hk, hc, hm]
  · exact recStepE_not_key coll id acc e hk

theorem recStep_of_ok (coll id : String) (acc acc' : Option CustomerRecord)
    (e : Event) (h : recStepE coll id acc e = .ok acc') :
    recStep coll id acc e = acc' := by
  simp [recStep, h]

theorem recStep_of_error (coll id : String) (acc : Option CustomerRecord)
    (e : Event) (err : DomainError) (h : recStepE coll id acc e = .error err) :
    recStep coll id acc e = acc := by
  simp [recStep, h]

theorem applyRecMods_eq (ms : List RecMod) : ∀ r : CustomerRecord,
    applyRecMods r ms =
      ⟨(lastSetName ms).getD r.name, r.email, r.password,
        (lastSetActive ms).getD r.active⟩ := by
  induction ms with
  | nil => intro r; rfl
  | cons m ms ih =>
    intro r
    cases m with
    | setName v =>
      have h1 : applyRecMods r (RecMod.setName v :: ms) =
          applyRecMods { r with name := v } ms := rfl
      rw [h1, ih]
      cases hn : lastSetName ms <;> cases ha : lastSetActive ms <;>
        simp [lastSetName, lastSetActive, hn, ha]
    | setActive v =>
      have h1 : applyRecMods r (RecMod.setActive v :: ms) =
          applyRecMods { r with active := v } ms := rfl
      rw [h1, ih]
      cases hn : lastSetName ms <;> cases ha : lastSetActive ms <;>
        simp [lastSetName, lastSetActive, hn, ha]

theorem recFold_some (coll id : String) (es : List Event) : ∀ r : CustomerRecord,
    recFold coll id (some r) es = some (applyRecMods r (modsFor coll id es)) := by
  induction es with
  | nil => intro r; rfl
  | cons e es ih =>
    intro r
    rw [recFold_cons]
    by_cases hk : coll = CUSTOMERS ∧ e.customerId = id
    · by_cases hc : e.__name = CUSTOMER_CREATED
      · rw [recStep_of_error coll id (some r) e _
          (recStepE_created_some coll id r e hk hc), ih]
        simp [modsFor, hk, eventMod_created e hc]
      · cases hm : eventMod e with
        | none =>
          rw [recStep_of_ok coll id (some r) (some r) e
            (recStepE_unhandled coll id (some r) e hc hm), ih]
          simp [modsFor, hk, hm]
        | some m =>
          rw [recStep_of_ok coll id (some r) (some (applyRecMod r m)) e
            (recStepE_mod_some coll id r e m hk hc hm), ih]
          simp [modsFor, hk, hm, applyRecMods]
    · rw [recStep_of_ok coll id (some r) (some r) e
        (recStepE_not_key coll id (some r) e hk), ih]
      simp [modsFor, hk]

theorem recFoldE_some (coll id : String) (es : List Event) :
    ∀ (r : CustomerRecord) (racc : Option CustomerRecord),
    recFoldE coll id (some r) es = .ok racc →
    racc = some (applyRecMods r (modsFor coll id es)) := by
  induction es with
  | nil =>
    intro r racc h
    injection h with h
    subst h
    rfl
  | cons e es ih =>
    intro r racc h
    rw [recFoldE_cons] at h
    by_cases hk : coll = CUSTOMERS ∧ e.customerId = id
    · by_cases hc : e.__name = CUSTOMER_CREATED
      · rw [recStepE_created_some coll id r e hk hc] at h
        simp at h
      · cases hm : eventMod e with
        | none =>
          rw [recStepE_unhandled coll id (some r) e hc hm] at h
          have h' : recFoldE coll id (some r) es = .ok racc := h
          rw [ih r racc h']
          simp [modsFor, hk, hm]
        | some m =>
          rw [recStepE_mod_some coll id r e m hk hc hm] at h
          have h' : recFoldE coll id (some (applyRecMod r m)) es = .ok racc := h
          rw [ih (applyRecMod r m) racc h']
          simp [modsFor, hk, hm, applyRecMods]
    · rw [recStepE_not_key coll id (some r) e hk] at h
      have h' : recFoldE coll id (some r) es = .ok racc := h
      rw [ih r racc h']
      simp [modsFor, hk]

theorem recFoldE_ok_refeed (coll id : String) (es : List Event) :
    ∀ b r1 : Option CustomerRecord, recFoldE coll id b es = .ok r1 →
    recFold coll id r1 es = r1 := by
  induction es with
  | nil =>
    intro b r1 h
    injection h with h
    subst h
    rfl
  | cons e es ih =>
    intro b r1 h
    rw [recFoldE_cons] at h
    cases hstep : recStepE coll id b e with
    | error err =>
      rw [hstep] at h
      simp at h
    | ok b' =>
      rw [hstep] at h
      have h' : recFoldE coll id b' es = .ok r1 := h
      have hres := ih b' r1 h'
      rw [recFold_cons]
      by_cases hk : coll = CUSTOMERS ∧ e.customerId = id
      · by_cases hc : e.__name = CUSTOMER_CREATED
        · cases b with
          | some rb =>
            rw [recStepE_created_some coll id rb e hk hc] at hstep
            cases hstep
          | none =>
            rw [recStepE_created_none coll id e hk hc] at hstep
            injection hstep with hb'
            subst hb'
            have hfm := recFoldE_some coll id es _ r1 h'
            subst hfm
            rw [recStep_of_error coll id _ e _
              (recStepE_created_some coll id _ e hk hc)]
            exact hres
        · cases hm : eventMod e with
          | none =>
            rw [recStep_of_ok coll id r1 r1 e
              (recStepE_unhandled coll id r1 e hc hm)]
            exact hres
          | some m =>
            cases b with
            | none =>
              rw [recStepE_mod_none coll id e m hk hc hm] at hstep
              cases hstep
            | some rb =>
              rw [recStepE_mod_some coll id rb e m hk hc hm] at hstep
              injection hstep with hb'
              subst hb'
              have hfm := recFoldE_some coll id es (applyRecMod rb m) r1 h'
              subst hfm
              rw [recStep_of_ok coll id _ _ e
                (recStepE_mod_some coll id _ e m hk hc hm)]
              rw [recFold_some coll id es _]
              cases m with
              | setName v =>
                simp only [applyRecMods_eq, applyRecMod]
                cases hn : lastSetName (modsFor coll id es) <;>
                  cases ha : lastSetActive (modsFor coll id es) <;>
                    simp [hn, ha]
              | setActive v =>
                simp only [applyRecMods_eq, applyRecMod]
                cases hn : lastSetName (modsFor coll id es) <;>
                  cases ha : lastSetActive (modsFor coll id es) <;>
                    simp [hn, ha]
      · rw [recStep_of_ok coll id r1 r1 e (recStepE_not_key coll id r1 e hk)]
        exact hres

theorem onEvent_ok_recStepE (s : AdapterState) (e : Event) (s' : AdapterState)
    (h : (onEvent s e).2 = .ok s') (coll id : String) :
    recStepE coll id (adapterGet s coll id) e = .ok (adapterGet s' coll id) := by
  by_cases h1 : e.__name = CUSTOMER_CREATED
  · rcases hg : adapterGet s CUSTOMERS e.customerId with _ | c
    · have hoe : (onEvent s e).2 = .ok (adapterInsert s CUSTOMERS e.customerId
          ⟨e.name, e.email, e.password, 1⟩) := by
        simp [onEvent, h1, onCustomerCreatedEvent, hg]
      rw [hoe] at h
      injection h with h
      subst h
      by_cases hk : coll = CUSTOMERS ∧ e.customerId = id
      · obtain ⟨hcoll, hid⟩ := hk
        subst hcoll
        subst hid
        rw [hg, recStepE_created_none CUSTOMERS e.customerId e ⟨rfl, rfl⟩ h1,
          adapterGet_insert_same]
      · rw [recStepE_not_key coll id _ e hk,
          adapterGet_insert_other s CUSTOMERS e.customerId coll id _
            (collKey_ne coll id CUSTOMERS e.customerId hk)]
    · simp [onEvent, h1, onCustomerCreatedEvent, hg] at h
  · by_cases h2 : e.__name = CUSTOMER_UPDATED
    · rcases hg : adapterGet s CUSTOMERS e.customerId with _ | c
      · simp [onEvent, h1, h2, CUSTOMER_CREATED, CUSTOMER_UPDATED,
          onCustomerUpdatedEvent, hg] at h
      · have hoe : (onEvent s e).2 = .ok (adapterUpdate s CUSTOMERS e.customerId
            { c with name := e.name }) := by
          simp [onEvent, h1, h2, CUSTOMER_CREATED, CUSTOMER_UPDATED,
            onCustomerUpdatedEvent, hg]
        rw [hoe] at h
        injection h with h
        subst h
        have hm : eventMod e = some (.setName e.name) := by simp [eventMod, h2]
        by_cases hk : coll = CUSTOMERS ∧ e.customerId = id
        · obtain ⟨hcoll, hid⟩ := hk
          subst hcoll
          subst hid
          rw [hg, recStepE_mod_some CUSTOMERS e.customerId c e _ ⟨rfl, rfl⟩ h1 hm,
            adapterGet_update_same, hg]
          rfl
        · rw [recStepE_not_key coll id _ e hk,
            adapterGet_update_other s CUSTOMERS e.customerId coll id _
              (collKey_ne coll id CUSTOMERS e.customerId hk)]
    · by_cases h3 : e.__name = CUSTOMER_DEACTIVATED
      · rcases hg : adapterGet s CUSTOMERS e.customerId with _ | c
        · simp [onEvent, h1, h2, h3, CUSTOMER_CREATED, CUSTOMER_UPDATED,
            CUSTOMER_DEACTIVATED, onCustomerDeactivatedEvent, hg] at h
        · have hoe : (onEvent s e).2 = .ok (adapterUpdate s CUSTOMERS e.customerId
              { c with active := 0 }) := by
            simp [onEvent, h1, h2, h3, CUSTOMER_CREATED, CUSTOMER_UPDATED,
              CUSTOMER_DEACTIVATED, onCustomerDeactivatedEvent, hg]
          rw [hoe] at h
          injection h with h
          subst h
          have hm : eventMod e = some (.setActive 0) := by
            simp [eventMod, h2, h3, CUSTOMER_UPDATED, CUSTOMER_DEACTIVATED]
          by_cases hk : coll = CUSTOMERS ∧ e.customerId = id
          · obtain ⟨hcoll, hid⟩ := hk
            subst hcoll
            subst hid
            rw [hg, recStepE_mod_some CUSTOMERS e.customerId c e _ ⟨rfl, rfl⟩ h1 hm,
              adapterGet_update_same, hg]
            rfl
          · rw [recStepE_not_key coll id _ e hk,
              adapterGet_update_other s CUSTOMERS e.customerId coll id _
                (collKey_ne coll id CUSTOMERS e.customerId hk)]
      · by_cases h4 : e.__name = CUSTOMER_REACTIVATED
        · rcases hg : adapterGet s CUSTOMERS e.customerId with _ | c
          · simp [onEvent, h1, h2, h3, h4, CUSTOMER_CREATED, CUSTOMER_UPDATED,
              CUSTOMER_DEACTIVATED, CUSTOMER_REACTIVATED,
              onCustomerReactivatedEvent, hg] at h
          · have hoe : (onEvent s e).2 = .ok (adapterUpdate s CUSTOMERS e.customerId
                { c with active := 1 }) := by
              simp [onEvent, h1, h2, h3, h4, CUSTOMER_CREATED, CUSTOMER_UPDATED,
                CUSTOMER_DEACTIVATED, CUSTOMER_REACTIVATED,
                onCustomerReactivatedEvent, hg]
            rw [hoe] at h
            injection h with h
            subst h
            have hm : eventMod e = some (.setActive 1) := by
              simp [eventMod, h2, h3, h4, CUSTOMER_UPDATED, CUSTOMER_DEACTIVATED,
                CUSTOMER_REACTIVATED]
            by_cases hk : coll = CUSTOMERS ∧ e.customerId = id
            · obtain ⟨hcoll, hid⟩ := hk
              subst hcoll
              subst hid
              rw [hg, recStepE_mod_some CUSTOMERS e.customerId c e _ ⟨rfl, rfl⟩ h1 hm,
                adapterGet_update_same, hg]
              rfl
            · rw [recStepE_not_key coll id _ e hk,
                adapterGet_update_other s CUSTOMERS e.customerId coll id _
                  (collKey_ne coll id CUSTOMERS e.customerId hk)]
        · have hoe : (onEvent s e).2 = .ok s := by
            simp [onEvent, h1, h2, h3, h4]
          rw [hoe] at h
          injection h with h
          subst h
          have hm : eventMod e = none := by simp [eventMod, h2, h3, h4]
          rw [recStepE_unhandled coll id _ e h1 hm]

theorem onEvent_error_recStep (s : AdapterState) (e : Event) (err : DomainError)
    (h : (onEvent s e).2 = .error err) (coll id : String) :
    recStep coll id (adapterGet s coll id) e = adapterGet s coll id := by
  by_cases hk : coll = CUSTOMERS ∧ e.customerId = id
  · obtain ⟨hcoll, hid⟩ := hk
    subst hcoll
    subst hid
    by_cases h1 : e.__name = CUSTOMER_CREATED
    · rcases hg : adapterGet s CUSTOMERS e.customerId with _ | c
      · simp [onEvent, h1, onCustomerCreatedEvent, hg] at h
      · exact recStep_of_error CUSTOMERS e.customerId (some c) e _
          (recStepE_created_some CUSTOMERS e.customerId c e ⟨rfl, rfl⟩ h1)
    · by_cases h2 : e.__name = CUSTOMER_UPDATED
      · rcases hg : adapterGet s CUSTOMERS e.customerId with _ | c
        · exact recStep_of_error CUSTOMERS e.customerId none e _
            (recStepE_mod_none CUSTOMERS e.customerId e (.setName e.name) ⟨rfl, rfl⟩ h1
              (by simp [eventMod, h2]))
        · simp [onEvent, h1, h2, CUSTOMER_CREATED, CUSTOMER_UPDATED,
            onCustomerUpdatedEvent, hg] at h
      · by_cases h3 : e.__name = CUSTOMER_DEACTIVATED
        · rcases hg : adapterGet s CUSTOMERS e.customerId with _ | c
          · exact recStep_of_error CUSTOMERS e.customerId none e _
              (recStepE_mod_none CUSTOMERS e.customerId e (.setActive 0) ⟨rfl, rfl⟩ h1
                (by simp [eventMod, h2, h3, CUSTOMER_UPDATED, CUSTOMER_DEACTIVATED]))
          · simp [onEvent, h1, h2, h3, CUSTOMER_CREATED, CUSTOMER_UPDATED,
              CUSTOMER_DEACTIVATED, onCustomerDeactivatedEvent, hg] at h
        · by_cases h4 : e.__name = CUSTOMER_REACTIVATED
          · rcases hg : adapterGet s CUSTOMERS e.customerId with _ | c
            · exact recStep_of_error CUSTOMERS e.customerId none e _
                (recStepE_mod_none CUSTOMERS e.customerId e (.setActive 1) ⟨rfl, rfl⟩ h1
                  (by simp [eventMod, h2, h3, h4, CUSTOMER_UPDATED,
                    CUSTOMER_DEACTIVATED, CUSTOMER_REACTIVATED]))
            · simp [onEvent, h1, h2, h3, h4, CUSTOMER_CREATED, CUSTOMER_UPDATED,
                CUSTOMER_DEACTIVATED, CUSTOMER_REACTIVATED,
                onCustomerReactivatedEvent, hg] at h
          · simp [onEvent, h1, h2, h3, h4] at h
  · exact recStep_of_ok coll id _ _ e (recStepE_not_key coll id _ e hk)

theorem replayAll_ok_get (es : List Event) : ∀ s s' : AdapterState,
    replayAll s es = .ok s' → ∀ coll id : String,
    recFoldE coll id (adapterGet s coll id) es = .ok (adapterGet s' coll id) := by
  induction es with
  | nil =>
    intro s s' h coll id
    injection h with h
    subst h
    rfl
  | cons e es ih =>
    intro s s' h coll id
    rw [replayAll_cons] at h
    cases ho : (onEvent s e).2 with
    | error err =>
      rw [ho] at h
      simp at h
    | ok s1 =>
      rw [ho] at h
      have h' : replayAll s1 es = .ok s' := h
      rw [recFoldE_cons, onEvent_ok_recStepE s e s1 ho coll id]
      exact ih s1 s' h' coll id

theorem feedLive_get (es : List Event) : ∀ (s : AdapterState) (coll id : String),
    adapterGet (feedLive s es) coll id = recFold coll id (adapterGet s coll id) es := by
  induction es with
  | nil => intro s coll id; rfl
  | cons e es ih =>
    intro s coll id
    rw [feedLive_cons, recFold_cons]
    cases ho : (onEvent s e).2 with
    | ok s1 =>
      simp only [ho]
      rw [recStep_of_ok coll id _ _ e (onEvent_ok_recStepE s e s1 ho coll id)]
      exact ih s1 coll id
    | error err =>
      simp only [ho]
      rw [onEvent_error_recStep s e err ho coll id]
      exact ih s coll id

/-- C3: for a history of handled events that replays without error into a
fresh projection yielding state s1, delivering the whole sequence again
live on top of s1 leaves every stored record exactly as in s1: each
handler re-derives the record from the full payload, so re-application
of history changes nothing. -/
theorem replay_refeed_idempotent (es : List Event) (s1 : AdapterState)
    (horder : replayAll emptyAdapterState es = .ok s1)
    (_htypes : ∀ e ∈ es, handledEventName e.__name = true) :
    ∀ coll id : String,
      adapterGet (feedLive s1 es) coll id = adapterGet s1 coll id := by
  intro coll id
  rw [feedLive_get]
  exact recFoldE_ok_refeed coll id es none (adapterGet s1 coll id)
    (replayAll_ok_get es emptyAdapterState s1 horder coll id)

/-- C3 witness: a concrete four-event history replayed into a fresh
projection and then fed again leaves the record unchanged. -/
theorem replay_refeed_idempotent_witness :
    adapterGet (feedLive
        [((CUSTOMERS, "c1"), ⟨"Bob", "alice@example.com", "pw", 1⟩)]
        [sampleCreated, sampleUpdated, sampleDeactivated, sampleReactivated])
      CUSTOMERS "c1" =
    adapterGet [((CUSTOMERS, "c1"), ⟨"Bob", "alice@example.com", "pw", 1⟩)]
      CUSTOMERS "c1" :=
  replay_refeed_idempotent
    [sampleCreated, sampleUpdated, sampleDeactivated, sampleReactivated]
    [((CUSTOMERS, "c1"), ⟨"Bob", "alice@example.com", "pw", 1⟩)]
    rfl (by decide) CUSTOMERS "c1"

end CustomerListReadModel
